import Mathlib

/-!
Shallow embedding of the `proportional_light` Home Assistant integration
(`utils.py`, `coordinator.py`, `entity.py`) and proofs about the claims of
its specification.  Machine brightness values are modelled as natural
numbers, proportions and color coordinates as exact rationals; Python's
`int()` truncation and float `%` are modelled by `pyInt` and `pyMod`.
-/

set_option allowUnsafeReducibility true
attribute [local semireducible] Rat.add Rat.mul Rat.sub Rat.div Rat.inv

/-- Python `int()` applied to a rational: truncation toward zero. -/
def pyInt (q : ℚ) : ℤ := if 0 ≤ q then ⌊q⌋ else -⌊-q⌋

/-- Python `a % b` on rationals (sign of the result follows `b`; here `b > 0`
in every use, so the result lies in `[0, b)`). -/
def pyMod (a b : ℚ) : ℚ := a - b * (⌊a / b⌋ : ℚ)

/-- Rounding to the nearest integer (half away from zero for the nonnegative
inputs that occur here), used to state the specification's `round(...)`. -/
def spec_round (q : ℚ) : ℤ := ⌊q + 1/2⌋

/-- Lookup in an association list keyed by strings, modelling Python
`dict.get(key)` (first binding wins; the dictionaries built below have
unique keys). -/
def alistFind {β : Type} (m : List (String × β)) (k : String) : Option β :=
  (m.find? (fun p => p.1 == k)).map (fun p => p.2)

/-- Python `dict.get(key, default)`. -/
def alistGetD {β : Type} (m : List (String × β)) (k : String) (d : β) : β :=
  (alistFind m k).getD d

/-- Python `dict.update(new)`: existing keys are overwritten in place, new
keys are appended in the order of `new`. -/
def alistUpdate {β : Type} (m new : List (String × β)) : List (String × β) :=
  (m.map (fun p => match alistFind new p.1 with
    | some v => (p.1, v)
    | none => p)) ++ new.filter (fun p => (alistFind m p.1).isNone)

/-- The stored brightness-proportion dictionary of a group
(`coordinator._brightness_proportions`). -/
abbrev PropMap := List (String × ℚ)

/-- One member device's state as the integration reads it from Home
Assistant: the state string plus the attributes the source consults. -/
structure LightState where
  entity_id : String
  state : String
  brightness : Option ℕ := none
  hs_color : Option (ℚ × ℚ) := none
  rgb_color : Option (ℤ × ℤ × ℤ) := none
  xy_color : Option (ℚ × ℚ) := none
  color_temp_kelvin : Option ℤ := none
  color_temp : Option ℤ := none
  effect : Option String := none
  supported_color_modes : List String := []
deriving DecidableEq

/-- `s.attributes.get(ATTR_BRIGHTNESS, 255)` as used throughout `utils.py`
and `coordinator.py`. -/
def state_brightness (s : LightState) : ℕ := s.brightness.getD 255

/-- `utils.get_on_states`: keep only states whose state string is "on". -/
def get_on_states (states : List LightState) : List LightState :=
  states.filter (fun s => s.state == "on")

/-- `utils.calculate_group_brightness`: `None` on an empty list, else the
maximum of the per-device brightness values (absent brightness counts as
255).  The stored-proportions argument is accepted and ignored, as in the
source. -/
def calculate_group_brightness (on_states : List LightState)
    (_stored_proportions : Option PropMap) : Option ℕ :=
  match on_states with
  | [] => none
  | _ :: _ => (on_states.map state_brightness).max?

/-- Maximum of a list of rationals; the callers only apply it to non-empty
lists, mirroring Python's `max`. -/
def qListMax (l : List ℚ) : ℚ := (l.max?).getD 0

/-- The sum of the values of an association list divided by its length:
`sum(d.values()) / len(d)`. -/
def qListAvg (l : List ℚ) : ℚ := l.sum / (l.length : ℚ)

/-- `utils._simple_color_average`: a singleton is returned unchanged;
otherwise hue and saturation are each averaged arithmetically. -/
def _simple_color_average (colors : List (ℚ × ℚ)) : ℚ × ℚ :=
  match colors with
  | [c] => c
  | _ =>
    ((colors.map (fun c => c.1)).sum / (colors.length : ℚ),
     (colors.map (fun c => c.2)).sum / (colors.length : ℚ))

/-- Modelled from the spec: `average_colors` as §4.1 describes it — convert
each hue-saturation pair to RGB at full value, arithmetic-mean the channels,
convert the mean back.  `utils.py` does not contain such a function; this
definition exists only to compare the spec's averaging contract with the
source's `_simple_color_average`.  The conversions follow `colorsys`. -/
def rgb_to_hsv (r g b : ℚ) : ℚ × ℚ × ℚ :=
  let maxc := max r (max g b)
  let minc := min r (min g b)
  let v := maxc
  if minc = maxc then (0, 0, v)
  else
    let s := (maxc - minc) / maxc
    let rc := (maxc - r) / (maxc - minc)
    let gc := (maxc - g) / (maxc - minc)
    let bc := (maxc - b) / (maxc - minc)
    let h := if r = maxc then bc - gc
      else if g = maxc then 2 + rc - bc
      else 4 + gc - rc
    (pyMod (h / 6) 1, s, v)

/-- The `colorsys.hsv_to_rgb` conversion on exact rationals. -/
def hsv_to_rgb (h s v : ℚ) : ℚ × ℚ × ℚ :=
  if s = 0 then (v, v, v)
  else
    let i0 : ℤ := pyInt (h * 6)
    let f := h * 6 - (i0 : ℚ)
    let p := v * (1 - s)
    let q := v * (1 - s * f)
    let t := v * (1 - s * (1 - f))
    let i := i0 % 6
    if i = 0 then (v, t, p)
    else if i = 1 then (q, v, p)
    else if i = 2 then (p, v, t)
    else if i = 3 then (p, q, v)
    else if i = 4 then (t, p, v)
    else (v, p, q)

/-- Modelled from the spec: the averaging contract of §4.1 — each (hue,
saturation) pair converted to RGB at V = 1.0, channels arithmetically
averaged, the mean converted back to hue-saturation; a singleton input is
returned unchanged. -/
def spec_average_colors (colors : List (ℚ × ℚ)) : ℚ × ℚ :=
  match colors with
  | [c] => c
  | _ =>
    let rgbs := colors.map (fun c => hsv_to_rgb (c.1 / 360) (c.2 / 100) 1)
    let n : ℚ := (rgbs.length : ℚ)
    let mr := (rgbs.map (fun c => c.1)).sum / n
    let mg := (rgbs.map (fun c => c.2.1)).sum / n
    let mb := (rgbs.map (fun c => c.2.2)).sum / n
    let hsv := rgb_to_hsv mr mg mb
    (hsv.1 * 360, hsv.2.1 * 100)

/-- `utils.calculate_proportional_brightness`: given the on states, the
integer target level and the optionally stored proportions, produce the
per-device brightness commands and the proportions used.  Mirrors the three
branches of the source: target ≥ 255, target ≤ 1, and proportional scaling,
including Python's `int()` truncation and the default proportion 1.0 for a
device missing from the stored dictionary. -/
def calculate_proportional_brightness (on_states : List LightState)
    (target_brightness : ℤ) (stored_proportions : Option PropMap) :
    List (String × ℤ) × PropMap :=
  match on_states with
  | [] => ([], [])
  | _ :: _ =>
    let entity_ids := on_states.map (fun s => s.entity_id)
    if 255 ≤ target_brightness then
      match stored_proportions with
      | none =>
        let current := on_states.map (fun s => (s.entity_id, (state_brightness s : ℚ)))
        let maxCur := qListMax (current.map (fun p => p.2))
        let max_current := if maxCur = 0 then 255 else maxCur
        let proportions := current.map (fun p => (p.1, p.2 / max_current))
        let news := entity_ids.map (fun e =>
          let v := pyInt (255 * alistGetD proportions e 1)
          (e, if v < 1 then 1 else v))
        (news, proportions)
      | some sp =>
        let max_proportion := qListMax (entity_ids.map (fun e => alistGetD sp e 1))
        let proportions := entity_ids.map (fun e => (e, alistGetD sp e 1))
        let news := entity_ids.map (fun e =>
          let v := pyInt (255 * (alistGetD proportions e 1 / max_proportion))
          (e, if v < 1 then 1 else v))
        (news, proportions)
    else if target_brightness ≤ 1 then
      let news := entity_ids.map (fun e => (e, (1 : ℤ)))
      let proportions :=
        match stored_proportions with
        | none => entity_ids.map (fun e => (e, (1 : ℚ)))
        | some sp => entity_ids.map (fun e => (e, alistGetD sp e 1))
      (news, proportions)
    else
      let proportions :=
        match stored_proportions with
        | none =>
          let current := on_states.map (fun s => (s.entity_id, (state_brightness s : ℚ)))
          let current_avg := qListAvg (current.map (fun p => p.2))
          if current_avg = 0 then entity_ids.map (fun e => (e, (1 : ℚ)))
          else current.map (fun p => (p.1, p.2 / current_avg))
        | some sp => entity_ids.map (fun e => (e, alistGetD sp e 1))
      let news := entity_ids.map (fun e =>
        let ideal := (target_brightness : ℚ) * alistGetD proportions e 1
        (e, max 1 (min 255 (pyInt ideal))))
      (news, proportions)

/-- The per-device proportions the coordinator derives from the observed on
states at group brightness `g` (`coordinator.async_update_state`,
`brightness / self._brightness`). -/
def current_proportions_of (on_states : List LightState) (g : ℕ) : PropMap :=
  on_states.map (fun s => (s.entity_id, (state_brightness s : ℚ) / (g : ℚ)))

/-- The proportion-observation step of `coordinator.async_update_state`
(lines 209–230): compute the group brightness, and rewrite the stored
proportions with the observed ones only when the map is empty or some
device drifted by more than 0.05. -/
def observe_proportions (stored : PropMap) (on_states : List LightState) : PropMap :=
  match calculate_group_brightness on_states (some stored) with
  | none => stored
  | some g =>
    if 0 < g then
      let current := current_proportions_of on_states g
      if stored.isEmpty ||
          current.any (fun p => 1/20 < |p.2 - alistGetD stored p.1 0|) then
        alistUpdate stored current
      else stored
    else stored

/-- The effect of one `coordinator.async_update_state` pass on the stored
proportion map: when no member is on the map is untouched, otherwise the
observation step above runs. -/
def update_proportions (stored : PropMap) (states : List LightState) : PropMap :=
  match get_on_states states with
  | [] => stored
  | o :: os => observe_proportions stored (o :: os)

/-- `entity._apply_to_on_lights`: the dispatched per-device brightness list
(each on device receives its computed value, with the raw target as the
`dict.get` fallback) and the coordinator's proportion map after the
write-back `self.coordinator._brightness_proportions.update(...)`. -/
def _apply_to_on_lights (on_states : List LightState) (target_brightness : ℤ)
    (coord_props : PropMap) : List (String × ℤ) × PropMap :=
  let r := calculate_proportional_brightness on_states target_brightness (some coord_props)
  (on_states.map (fun s => (s.entity_id, alistGetD r.1 s.entity_id target_brightness)),
   alistUpdate coord_props r.2)

/-- `entity._apply_to_all_lights`: every configured device receives the same
brightness. -/
def _apply_to_all_lights (states : List LightState) (b : ℤ) : List (String × ℤ) :=
  states.map (fun s => (s.entity_id, b))

/-- Python truthiness of an optional brightness: `None` and `0` are falsy. -/
def py_truthy (x : Option ℕ) : Option ℕ :=
  match x with
  | some n => if n = 0 then none else some n
  | none => none

/-- The brightness chosen by `entity.async_turn_on`: with no member on,
`target_brightness or 255`; with members on,
`target_brightness or self.coordinator.brightness or 255`. -/
def async_turn_on_brightness (target_brightness coordinator_brightness : Option ℕ)
    (any_on : Bool) : ℕ :=
  if any_on then ((py_truthy target_brightness).or (py_truthy coordinator_brightness)).getD 255
  else (py_truthy target_brightness).getD 255

/-- The per-device brightness values dispatched by `entity.async_turn_on`:
nothing on an empty state list; all configured devices at the fallback
brightness when none is on; the proportional values for the on devices
otherwise. -/
def async_turn_on_dispatch (states : List LightState)
    (target_brightness coordinator_brightness : Option ℕ)
    (coord_props : PropMap) : List (String × ℤ) :=
  match states with
  | [] => []
  | _ :: _ =>
    match get_on_states states with
    | [] =>
      _apply_to_all_lights states
        (async_turn_on_brightness target_brightness coordinator_brightness false)
    | o :: os =>
      (_apply_to_on_lights (o :: os)
        (async_turn_on_brightness target_brightness coordinator_brightness true)
        coord_props).1

/-- `entity.async_turn_off`: one `light.turn_off` call carrying every
configured entity identifier (no call at all when none is configured); the
list of identifiers the call addresses. -/
def async_turn_off_targets (entities : List String) : List String :=
  match entities with
  | [] => []
  | _ :: _ => entities

/-- Modelled from the spec: `mired_to_kelvin(mired) = round(1_000_000/mired)`
with default 3000 K for a non-positive mired value (§4.1). -/
def mired_to_kelvin (mired : ℤ) : ℤ :=
  if 0 < mired then spec_round ((1000000 : ℚ) / (mired : ℚ)) else 3000

/-- The first non-"off" active effect reported by an on device, in device
iteration order (spec §4.3 step 4a). -/
def first_active_effect (on_states : List LightState) : Option String :=
  (on_states.filterMap (fun s => s.effect)).find? (fun e => !(e == "off"))

/-- Modelled from the spec: the representative color of one on device per
§4.3 step 4b.  A device with a color-capable mode and a reported
hue-saturation value of saturation > 5 contributes that color with its
configured hue offset subtracted (mod 360); else an RGB value with channel
spread > 10 is converted; else a reported XY value is skipped; else a
Kelvin or legacy mired color temperature is converted through the
platform's Kelvin-to-RGB table, abstracted here as `kelvin_to_hs`. -/
def device_representative_color (kelvin_to_hs : ℤ → ℚ × ℚ)
    (hue_offsets : PropMap) (s : LightState) : Option (ℚ × ℚ) :=
  let has_color_support :=
    s.supported_color_modes.any (fun m => m == "hs" || m == "xy" || m == "rgb")
  let hs_ok := has_color_support &&
    (match s.hs_color with
     | some c => decide (5 < c.2)
     | none => false)
  if hs_ok then
    match s.hs_color with
    | some (hue, sat) =>
      match alistFind hue_offsets s.entity_id with
      | some k => some (pyMod (hue - k) 360, sat)
      | none => some (hue, sat)
    | none => none
  else match s.rgb_color with
  | some (r, g, b) =>
    if max r (max g b) - min r (min g b) > 10 then
      let hsv := rgb_to_hsv ((r : ℚ) / 255) ((g : ℚ) / 255) ((b : ℚ) / 255)
      some (hsv.1 * 360, hsv.2.1 * 100)
    else none
  | none =>
  match s.xy_color with
  | some _ => none
  | none =>
  match s.color_temp_kelvin with
  | some k => some (kelvin_to_hs k)
  | none =>
  match s.color_temp with
  | some m => some (kelvin_to_hs (mired_to_kelvin m))
  | none => none

/-- Modelled from the spec: `calculate_average_color_and_effect`, the
aggregation step that `coordinator.async_update_state` imports from
`utils` but that is absent from the sources.  Per §4.3 step 4: a non-"off"
active effect wins and leaves color and color temperature absent; else the
representative colors are averaged; else the first reported color
temperature (Kelvin, or legacy mired converted) is used; else 3000 K. -/
def calculate_average_color_and_effect (kelvin_to_hs : ℤ → ℚ × ℚ)
    (on_states : List LightState) (hue_offsets : PropMap) :
    Option (ℚ × ℚ) × Option ℤ × Option String :=
  match on_states with
  | [] => (none, none, none)
  | _ :: _ =>
    match first_active_effect on_states with
    | some e => (none, none, some e)
    | none =>
      match on_states.filterMap (device_representative_color kelvin_to_hs hue_offsets) with
      | _ :: _ =>
        (some (_simple_color_average
          (on_states.filterMap (device_representative_color kelvin_to_hs hue_offsets))),
         none, none)
      | [] =>
        match on_states.filterMap (fun s =>
          match s.color_temp_kelvin with
          | some k => some k
          | none =>
            match s.color_temp with
            | some m => some (mired_to_kelvin m)
            | none => none) with
        | t :: _ => (none, some t, none)
        | [] => (none, some 3000, none)

/-- The color-bearing keyword arguments a group turn-on command may carry
(`**kwargs` of `utils.add_color_attributes`). -/
structure TurnOnKwargs where
  hs_color : Option (ℚ × ℚ) := none
  color_temp_kelvin : Option ℤ := none
  rgb_color : Option (ℤ × ℤ × ℤ) := none
  rgbw_color : Option (ℤ × ℤ × ℤ × ℤ) := none
  rgbww_color : Option (ℤ × ℤ × ℤ × ℤ × ℤ) := none
  xy_color : Option (ℚ × ℚ) := none
deriving DecidableEq

/-- The single color attribute `add_color_attributes` writes into the
per-device service data. -/
inductive ColorAttr where
  | hs (c : ℚ × ℚ)
  | tempK (k : ℤ)
  | rgb (c : ℤ × ℤ × ℤ)
  | rgbw (c : ℤ × ℤ × ℤ × ℤ)
  | rgbww (c : ℤ × ℤ × ℤ × ℤ × ℤ)
  | xy (c : ℚ × ℚ)
deriving DecidableEq

/-- `utils.add_color_attributes`: the priority chain hs > color-temp > rgb >
rgbw > rgbww > xy, with the device's configured hue offset added (mod 360)
to a requested hue, RGB round-tripped through `colorsys`, and XY
round-tripped through the platform conversions `xy_to_hs` / `hs_to_xy`
(abstracted as parameters; a failing conversion, `none`, falls back to the
unmodified XY value). -/
def add_color_attributes (xy_to_hs : ℚ × ℚ → Option (ℚ × ℚ))
    (hs_to_xy : ℚ × ℚ → ℚ × ℚ) (entity_id : String) (hue_offsets : PropMap)
    (kwargs : TurnOnKwargs) : Option ColorAttr :=
  match kwargs.hs_color with
  | some (h, s) =>
    match alistFind hue_offsets entity_id with
    | some k => some (.hs (pyMod (h + k) 360, s))
    | none => some (.hs (h, s))
  | none =>
  match kwargs.color_temp_kelvin with
  | some k => some (.tempK k)
  | none =>
  match kwargs.rgb_color with
  | some (r, g, b) =>
    match alistFind hue_offsets entity_id with
    | some k =>
      let hsv := rgb_to_hsv ((r : ℚ) / 255) ((g : ℚ) / 255) ((b : ℚ) / 255)
      let offset_h := pyMod (hsv.1 * 360 + k) 360
      let rgb' := hsv_to_rgb (offset_h / 360) hsv.2.1 hsv.2.2
      some (.rgb (pyInt (rgb'.1 * 255), pyInt (rgb'.2.1 * 255), pyInt (rgb'.2.2 * 255)))
    | none => some (.rgb (r, g, b))
  | none =>
  match kwargs.rgbw_color with
  | some c => some (.rgbw c)
  | none =>
  match kwargs.rgbww_color with
  | some c => some (.rgbww c)
  | none =>
  match kwargs.xy_color with
  | some (x, y) =>
    match alistFind hue_offsets entity_id with
    | some k =>
      match xy_to_hs (x, y) with
      | some (h, s) => some (.xy (hs_to_xy (pyMod (h + k) 360, s)))
      | none => some (.xy (x, y))
    | none => some (.xy (x, y))
  | none => none

/-- A device state that is on with the given brightness attribute. -/
def onState (eid : String) (b : ℕ) : LightState :=
  { entity_id := eid, state := "on", brightness := some b }

/-- The member states after a dispatched brightness command has been applied:
each addressed device is on and reports the commanded brightness. -/
def states_with_brightness (news : List (String × ℤ)) : List LightState :=
  news.map (fun p => { entity_id := p.1, state := "on", brightness := some p.2.toNat })

/-- A device state that is off. -/
def offState (eid : String) : LightState := { entity_id := eid, state := "off" }

/-- The maximum stored proportion over the on devices (default 1.0 for a
device absent from the map), the scaling reference of the target ≥ 255
branch. -/
def stored_max (on_states : List LightState) (sp : PropMap) : ℚ :=
  qListMax ((on_states.map (fun s => s.entity_id)).map (fun e => alistGetD sp e 1))

/-- The maximum current brightness over the on devices, as a rational. -/
def current_max (on_states : List LightState) : ℚ :=
  qListMax (on_states.map (fun s => (state_brightness s : ℚ)))

/-- The average current brightness over the on devices. -/
def current_avg (on_states : List LightState) : ℚ :=
  qListAvg (on_states.map (fun s => (state_brightness s : ℚ)))

/-- The member states right after a proportional brightness command: each
on device reports exactly the brightness it was sent. -/
def roundtrip_states (sp : PropMap) (T : ℤ) (on_states : List LightState) :
    List LightState :=
  states_with_brightness (calculate_proportional_brightness on_states T (some sp)).1

/-- The proportions the coordinator would re-observe immediately after the
command of `roundtrip_states`. -/
def roundtrip_current (sp : PropMap) (T : ℤ) (on_states : List LightState) : PropMap :=
  current_proportions_of (roundtrip_states sp T on_states)
    ((calculate_group_brightness (roundtrip_states sp T on_states) (some sp)).getD 0)

example : (calculate_proportional_brightness [onState "a" 10, onState "b" 20] 255
    (some [("a", 1), ("b", 999/1000)])).1 = [("a", 255), ("b", 254)] := by decide
example : (calculate_proportional_brightness [onState "a" 100, onState "b" 50] 100
    none).1 = [("a", 133), ("b", 66)] := by decide
example : (calculate_proportional_brightness [onState "a" 100, onState "b" 50] 100
    (some [])).1 = [("a", 100), ("b", 100)] := by decide
example : (calculate_proportional_brightness [onState "a" 100, onState "b" 50] 10
    (some [("a", 1), ("b", 14/25)])).1 = [("a", 10), ("b", 5)] := by decide
example : observe_proportions [("a", 1), ("b", 14/25)]
    (states_with_brightness [("a", 10), ("b", 5)]) = [("a", 1), ("b", 1/2)] := by decide
example : observe_proportions [("a", 1), ("b", 1/2)]
    (states_with_brightness [("a", 200), ("b", 100)]) = [("a", 1), ("b", 1/2)] := by decide

theorem alistGetD_map_key {β : Type} (ids : List String) (g : String → β)
    (e : String) (d : β) (he : e ∈ ids) :
    alistGetD (ids.map (fun x => (x, g x))) e d = g e := by
  induction ids with
  | nil => cases he
  | cons x t ih =>
    by_cases hx : x = e
    · subst hx
      simp [alistGetD, alistFind, List.find?]
    · have he' : e ∈ t := by
        rcases List.mem_cons.mp he with h | h
        · exact absurd h.symm hx
        · exact h
      have hbeq : (x == e) = false := beq_eq_false_iff_ne.mpr hx
      simpa [alistGetD, alistFind, List.find?, hbeq] using ih he'

theorem alistGetD_map_of_nodup {α β : Type} (l : List α) (key : α → String)
    (f : α → β) (a : α) (d : β) (ha : a ∈ l) (hnd : (l.map key).Nodup) :
    alistGetD (l.map (fun x => (key x, f x))) (key a) d = f a := by
  induction l with
  | nil => cases ha
  | cons x t ih =>
    rw [List.map_cons, List.nodup_cons] at hnd
    by_cases hx : key x = key a
    · have hax : a = x := by
        rcases List.mem_cons.mp ha with h | h
        · exact h
        · exact absurd (hx ▸ List.mem_map_of_mem key h) hnd.1
      subst hax
      simp [alistGetD, alistFind, List.find?]
    · have ha' : a ∈ t := by
        rcases List.mem_cons.mp ha with h | h
        · exact absurd (congrArg key h.symm) hx
        · exact h
      have hbeq : (key x == key a) = false := beq_eq_false_iff_ne.mpr hx
      simpa [alistGetD, alistFind, List.find?, hbeq] using ih ha' hnd.2

theorem max?_spec {α : Type} [LinearOrder α] {l : List α} (hne : l ≠ []) :
    ∃ m, l.max? = some m ∧ m ∈ l ∧ ∀ x ∈ l, x ≤ m := by
  haveI : Std.Antisymm ((· : α) ≤ ·) := ⟨@fun _ _ h h' => le_antisymm h h'⟩
  obtain ⟨a, t, rfl⟩ := List.exists_cons_of_ne_nil hne
  refine ⟨List.foldl max a t, rfl, ?_⟩
  have hrfl : (a :: t).max? = some (List.foldl max a t) := rfl
  exact (List.max?_eq_some_iff (fun x => le_refl x) (fun x y => max_choice x y)
    (fun x y z => max_le_iff)).mp hrfl

theorem qListMax_spec (l : List ℚ) (hne : l ≠ []) :
    qListMax l ∈ l ∧ ∀ x ∈ l, x ≤ qListMax l := by
  obtain ⟨m, hm, hmem, hub⟩ := max?_spec hne
  rw [qListMax, hm]
  exact ⟨hmem, hub⟩

theorem pyInt_of_nonneg (q : ℚ) (h : 0 ≤ q) : pyInt q = ⌊q⌋ := by
  simp [pyInt, h]

theorem pyInt_intCast (n : ℤ) : pyInt (n : ℚ) = n := by
  rcases le_or_lt 0 (n : ℚ) with h | h
  · rw [pyInt_of_nonneg _ h, Int.floor_intCast]
  · rw [pyInt, if_neg (not_le.mpr h)]
    rw [show (-(n : ℚ)) = ((-n : ℤ) : ℚ) by push_cast; ring, Int.floor_intCast]
    ring

theorem pyMod_roundtrip (h k : ℚ) (h0 : 0 ≤ h) (h1 : h < 360) :
    pyMod (pyMod (h + k) 360 - k) 360 = h := by
  unfold pyMod
  have e1 : h + k - 360 * (⌊(h + k) / 360⌋ : ℚ) - k
      = h - 360 * (⌊(h + k) / 360⌋ : ℚ) := by ring
  rw [e1]
  have e2 : (h - 360 * (⌊(h + k) / 360⌋ : ℚ)) / 360
      = h / 360 - (⌊(h + k) / 360⌋ : ℚ) := by ring
  rw [e2]
  rw [show (h / 360 - (⌊(h + k) / 360⌋ : ℚ)) = (h / 360 + (-⌊(h + k) / 360⌋ : ℤ)) by
    push_cast; ring]
  rw [Int.floor_add_int]
  have e3 : ⌊h / 360⌋ = 0 := by
    rw [Int.floor_eq_zero_iff]
    constructor
    · exact div_nonneg h0 (by norm_num)
    · rw [div_lt_one (by norm_num)]
      exact h1
  rw [e3]
  push_cast
  ring

/-- C1, counterexample: on pure red and pure blue the source's
`_simple_color_average` returns green (hue 120), while the spec's
convert-to-RGB-and-average contract yields magenta (hue 300).  The claim's
averaging contract does not describe the code. -/
theorem C1_counterexample :
    _simple_color_average [((0:ℚ), (100:ℚ)), (240, 100)] = (120, 100) ∧
    spec_average_colors [((0:ℚ), (100:ℚ)), (240, 100)] = (300, 100) ∧
    _simple_color_average [((0:ℚ), (100:ℚ)), (240, 100)] ≠
      spec_average_colors [((0:ℚ), (100:ℚ)), (240, 100)] := by
  refine ⟨by decide, by decide, by decide⟩

/-- C1, amended: `_simple_color_average` returns a singleton unchanged, and
on two or more colors it averages the hue values and the saturation values
arithmetically and directly — it never converts through RGB. -/
theorem C1_theorem :
    (∀ c : ℚ × ℚ, _simple_color_average [c] = c) ∧
    ∀ colors : List (ℚ × ℚ), 2 ≤ colors.length →
      _simple_color_average colors =
        ((colors.map (fun c => c.1)).sum / (colors.length : ℚ),
         (colors.map (fun c => c.2)).sum / (colors.length : ℚ)) := by
  constructor
  · intro c; rfl
  · intro colors h
    match colors with
    | [] => simp at h
    | [a] => simp at h
    | a :: b :: t => rfl

/-- C1, witness: the averaging branch evaluated on a two-color input. -/
theorem C1_witness :
    _simple_color_average [((0:ℚ), (0:ℚ)), (10, 20)] = (5, 10) := by
  have h := C1_theorem.2 [((0:ℚ), (0:ℚ)), (10, 20)] (by decide)
  rw [h]
  norm_num

/-- C3, spec-modelled: when some on device reports a non-"off" active
effect, the aggregation returns that first such effect and leaves both the
group color and the group color temperature absent. -/
theorem C3_theorem (kelvin_to_hs : ℤ → ℚ × ℚ) (on_states : List LightState)
    (hue_offsets : PropMap) (e : String) (hne : on_states ≠ [])
    (heff : first_active_effect on_states = some e) :
    calculate_average_color_and_effect kelvin_to_hs on_states hue_offsets
      = (none, none, some e) := by
  obtain ⟨a, t, rfl⟩ := List.exists_cons_of_ne_nil hne
  simp [calculate_average_color_and_effect, heff]

/-- C3, witness: scenario D — one device runs effect "rainbow", another
shows a steady color; the group reports effect "rainbow" and no color. -/
theorem C3_witness :
    calculate_average_color_and_effect (fun _ => ((0:ℚ), (0:ℚ)))
      [{ entity_id := "a", state := "on", effect := some "rainbow" },
       { entity_id := "b", state := "on", hs_color := some (120, 80),
         supported_color_modes := ["hs"] }] []
      = (none, none, some "rainbow") :=
  C3_theorem (fun _ => ((0:ℚ), (0:ℚ)))
    [{ entity_id := "a", state := "on", effect := some "rainbow" },
     { entity_id := "b", state := "on", hs_color := some (120, 80),
       supported_color_modes := ["hs"] }] [] "rainbow" (by decide) (by decide)

/-- C7: on a non-empty on-device list the aggregated group brightness is
the maximum per-device brightness — an upper bound that is attained. -/
theorem C7_theorem (on_states : List LightState) (sp : Option PropMap)
    (hne : on_states ≠ []) :
    ∃ M, calculate_group_brightness on_states sp = some M ∧
      (∀ s ∈ on_states, state_brightness s ≤ M) ∧
      ∃ s ∈ on_states, state_brightness s = M := by
  obtain ⟨a, t, rfl⟩ := List.exists_cons_of_ne_nil hne
  obtain ⟨m, hm, hmem, hub⟩ := max?_spec (l := (a :: t).map state_brightness) (by simp)
  refine ⟨m, ?_, ?_, ?_⟩
  · rw [calculate_group_brightness]
    exact hm
  · intro s hs
    exact hub _ (List.mem_map_of_mem state_brightness hs)
  · obtain ⟨s, hs, hsb⟩ := List.mem_map.mp hmem
    exact ⟨s, hs, hsb⟩

/-- C7, witness: two on devices at 200 and 50; the group brightness is 200. -/
theorem C7_witness :
    calculate_group_brightness [onState "a" 200, onState "b" 50] none = some 200 := by
  obtain ⟨M, hM, hub, hex⟩ :=
    C7_theorem [onState "a" 200, onState "b" 50] none (by decide)
  have h200 : 200 ≤ M := hub (onState "a" 200) (by decide)
  have hle : M ≤ 200 := by
    obtain ⟨s, hs, hsb⟩ := hex
    rcases List.mem_cons.mp hs with h | h
    · rw [← hsb, h]; decide
    · rcases List.mem_cons.mp h with h' | h'
      · rw [← hsb, h']; decide
      · cases h'
  rw [hM, Nat.le_antisymm hle h200]

/-- C9: turning the group off addresses every configured device identifier
(regardless of each device's current state), and the state-update pass that
follows, seeing no on device, leaves the stored proportion map unchanged. -/
theorem C9_theorem (entities : List String) (sp : PropMap)
    (states : List LightState) (hoff : ∀ s ∈ states, s.state ≠ "on") :
    (∀ e ∈ entities, e ∈ async_turn_off_targets entities) ∧
    update_proportions sp states = sp := by
  constructor
  · intro e he
    cases entities with
    | nil => cases he
    | cons a t => exact he
  · have hnil : get_on_states states = [] := by
      rw [get_on_states, List.filter_eq_nil_iff]
      intro s hs
      simpa using hoff s hs
    rw [update_proportions, hnil]

/-- C9, witness: a group of two devices, one already off; turn-off targets
both and the proportion map survives the post-command update. -/
theorem C9_witness :
    ("a" ∈ async_turn_off_targets ["a", "b"] ∧
     "b" ∈ async_turn_off_targets ["a", "b"]) ∧
    update_proportions [("a", 2)] [offState "a", offState "b"] = [("a", 2)] := by
  have h := C9_theorem ["a", "b"] [("a", 2)] [offState "a", offState "b"] (by decide)
  exact ⟨⟨h.1 "a" (by decide), h.1 "b" (by decide)⟩, h.2⟩

/-- C2, spec-modelled: with configured offset `k`, `add_color_attributes`
sends hue `(h + k) mod 360` for a requested hue `h`, and the aggregation of
a single colored device reporting hue `(h + k) mod 360` with offset `k`
subtracts the offset again and recovers the group hue `h` (saturation above
the 5-percent colored threshold and in range `0 ≤ h < 360`). -/
theorem C2_theorem (xy_to_hs : ℚ × ℚ → Option (ℚ × ℚ))
    (hs_to_xy : ℚ × ℚ → ℚ × ℚ) (kelvin_to_hs : ℤ → ℚ × ℚ) (eid : String)
    (h k sat : ℚ) (kw : TurnOnKwargs) (hkw : kw.hs_color = some (h, sat))
    (h0 : 0 ≤ h) (h1 : h < 360) (hsat : 5 < sat) :
    add_color_attributes xy_to_hs hs_to_xy eid [(eid, k)] kw
      = some (.hs (pyMod (h + k) 360, sat)) ∧
    calculate_average_color_and_effect kelvin_to_hs
      [{ entity_id := eid, state := "on",
         hs_color := some (pyMod (h + k) 360, sat),
         supported_color_modes := ["hs"] }] [(eid, k)]
      = (some (h, sat), none, none) := by
  constructor
  · rw [add_color_attributes, hkw]
    simp [alistFind, List.find?]
  · have hrep : device_representative_color kelvin_to_hs [(eid, k)]
        { entity_id := eid, state := "on",
          hs_color := some (pyMod (h + k) 360, sat),
          supported_color_modes := ["hs"] }
        = some (pyMod (pyMod (h + k) 360 - k) 360, sat) := by
      simp [device_representative_color, alistFind, List.find?, hsat]
    simp only [calculate_average_color_and_effect, first_active_effect,
      List.filterMap_cons, List.filterMap_nil, hrep]
    simp [_simple_color_average, pyMod_roundtrip h k h0 h1]

/-- C2, witness: offset 20°, requested hue 10° — the device is commanded
hue 30°, and aggregating a device reporting hue 30° recovers hue 10°. -/
theorem C2_witness :
    add_color_attributes (fun _ => none) (fun c => c) "a" [("a", 20)]
      { hs_color := some (10, 50) } = some (.hs (30, 50)) ∧
    calculate_average_color_and_effect (fun _ => ((0:ℚ), (0:ℚ)))
      [{ entity_id := "a", state := "on", hs_color := some (30, 50),
         supported_color_modes := ["hs"] }] [("a", 20)]
      = (some (10, 50), none, none) := by
  have h := C2_theorem (fun _ => none) (fun c => c) (fun _ => ((0:ℚ), (0:ℚ)))
    "a" 10 20 50 { hs_color := some (10, 50) } rfl (by norm_num) (by norm_num)
    (by norm_num)
  have hpm : pyMod ((10 : ℚ) + 20) 360 = 30 := by decide
  rw [hpm] at h
  exact h

/-- C4, counterexample: with stored proportions {a: 1, b: 0.999} and target
255 the code assigns b `int(255 * 0.999) = 254` (truncation), while the
claim's `round(255 * P[b] / max(P.values()))` is 255. -/
theorem C4_counterexample :
    (calculate_proportional_brightness [onState "a" 10, onState "b" 20] 255
      (some [("a", 1), ("b", 999/1000)])).1 = [("a", 255), ("b", 254)] ∧
    spec_round (255 * ((999 : ℚ)/1000) / 1) = 255 ∧ (254 : ℤ) ≠ 255 := by
  refine ⟨by decide, by decide, by decide⟩

/-- C4, amended: for target ≥ 255, each on device is assigned
`int(255 * P[d] / maxP)` — Python truncation, not rounding — floored at 1,
where `P[d]` defaults to 1.0 and `maxP` is the maximum proportion among the
on devices; a device holding the maximum proportion is assigned exactly
255.  With no stored proportions, the proportions are first derived as
each device's current brightness over the maximum current brightness, and
the device at maximum current brightness is assigned exactly 255. -/
theorem C4_theorem :
    (∀ (on_states : List LightState) (sp : PropMap) (T : ℤ),
      on_states ≠ [] → 255 ≤ T → 0 < stored_max on_states sp →
      ((calculate_proportional_brightness on_states T (some sp)).1 =
        on_states.map (fun s =>
          let v := pyInt (255 * (alistGetD sp s.entity_id 1 / stored_max on_states sp))
          (s.entity_id, if v < 1 then 1 else v)) ∧
       ∀ s ∈ on_states, alistGetD sp s.entity_id 1 = stored_max on_states sp →
        alistGetD (calculate_proportional_brightness on_states T (some sp)).1
          s.entity_id 0 = 255)) ∧
    (∀ (on_states : List LightState) (T : ℤ),
      on_states ≠ [] → 255 ≤ T → (on_states.map (fun s => s.entity_id)).Nodup →
      0 < current_max on_states →
      ((calculate_proportional_brightness on_states T none).2 =
        on_states.map (fun s =>
          (s.entity_id, (state_brightness s : ℚ) / current_max on_states)) ∧
       (calculate_proportional_brightness on_states T none).1 =
        on_states.map (fun s =>
          let v := pyInt (255 * ((state_brightness s : ℚ) / current_max on_states))
          (s.entity_id, if v < 1 then 1 else v)) ∧
       ∀ s ∈ on_states, (state_brightness s : ℚ) = current_max on_states →
        alistGetD (calculate_proportional_brightness on_states T none).1
          s.entity_id 0 = 255)) := by
  have hv255 : ∀ x : ℚ, x = 1 →
      (if pyInt (255 * x) < 1 then (1 : ℤ) else pyInt (255 * x)) = 255 := by
    intro x hx
    subst hx
    rw [show (255 : ℚ) * 1 = ((255 : ℤ) : ℚ) by norm_num, pyInt_intCast]
    norm_num
  constructor
  · intro on_states sp T hne hT hpos
    obtain ⟨a, t, rfl⟩ := List.exists_cons_of_ne_nil hne
    have key : (calculate_proportional_brightness (a :: t) T (some sp)).1 =
        ((a :: t).map (fun s => s.entity_id)).map (fun e =>
          let v := pyInt (255 * (alistGetD sp e 1 / stored_max (a :: t) sp))
          (e, if v < 1 then 1 else v)) := by
      simp only [calculate_proportional_brightness, if_pos hT, stored_max]
      refine List.map_congr_left ?_
      intro e he
      rw [alistGetD_map_key ((a :: t).map (fun s => s.entity_id))
        (fun e => alistGetD sp e 1) e 1 he]
    constructor
    · rw [key, List.map_map]
      rfl
    · intro s hs hmax
      rw [key, alistGetD_map_key ((a :: t).map (fun s' => s'.entity_id))
        _ s.entity_id 0 (List.mem_map_of_mem _ hs)]
      simp only [hmax]
      exact hv255 _ (div_self (ne_of_gt hpos))
  · intro on_states T hne hT hnd hpos
    obtain ⟨a, t, rfl⟩ := List.exists_cons_of_ne_nil hne
    have hmc : ¬ current_max (a :: t) = 0 := ne_of_gt hpos
    have hden : qListMax (((a :: t).map
        (fun s => (s.entity_id, (state_brightness s : ℚ)))).map (fun p => p.2))
        = current_max (a :: t) := by
      rw [List.map_map]
      rfl
    have hprop : (calculate_proportional_brightness (a :: t) T none).2 =
        (a :: t).map (fun s =>
          (s.entity_id, (state_brightness s : ℚ) / current_max (a :: t))) := by
      simp only [calculate_proportional_brightness, if_pos hT, hden, if_neg hmc]
      simp only [List.map_map]
      rfl
    have key : (calculate_proportional_brightness (a :: t) T none).1 =
        ((a :: t).map (fun s => s.entity_id)).map (fun e =>
          let v := pyInt (255 * (alistGetD
            ((a :: t).map (fun s =>
              (s.entity_id, (state_brightness s : ℚ) / current_max (a :: t)))) e 1))
          (e, if v < 1 then 1 else v)) := by
      simp only [calculate_proportional_brightness, if_pos hT, hden, if_neg hmc]
      simp only [List.map_map]
      rfl
    refine ⟨hprop, ?_, ?_⟩
    · rw [key, List.map_map]
      refine List.map_congr_left ?_
      intro s hs
      have := alistGetD_map_of_nodup (a :: t) (fun s => s.entity_id)
        (fun s => (state_brightness s : ℚ) / current_max (a :: t)) s 1 hs hnd
      simp only [Function.comp]
      rw [this]
    · intro s hs hmax
      rw [key, alistGetD_map_key ((a :: t).map (fun s' => s'.entity_id))
        _ s.entity_id 0 (List.mem_map_of_mem _ hs)]
      rw [alistGetD_map_of_nodup (a :: t) (fun s => s.entity_id)
        (fun s => (state_brightness s : ℚ) / current_max (a :: t)) s 1 hs hnd]
      simp only [hmax]
      exact hv255 _ (div_self (ne_of_gt hpos))

/-- C4, witness: the stored branch with proportions {a: 1, b: 0.5} pins a
to 255, and scenario B (currents 255 and 128, no stored proportions) pins
the brightest device to 255. -/
theorem C4_witness :
    alistGetD (calculate_proportional_brightness [onState "a" 10, onState "b" 20]
      255 (some [("a", 1), ("b", 1/2)])).1 "a" 0 = 255 ∧
    alistGetD (calculate_proportional_brightness [onState "a" 255, onState "b" 128]
      255 none).1 "a" 0 = 255 := by
  constructor
  · exact (C4_theorem.1 [onState "a" 10, onState "b" 20] [("a", 1), ("b", 1/2)]
      255 (by decide) (by decide) (by decide)).2 (onState "a" 10) (by decide)
      (by decide)
  · exact (C4_theorem.2 [onState "a" 255, onState "b" 128] 255 (by decide)
      (by decide) (by decide) (by decide)).2.2 (onState "a" 255) (by decide)
      (by decide)

/-- C5, counterexample: with currents {a: 100, b: 50} and target 100 the
derivation-from-average gives b the ideal 100·(50/75) = 66.67, which the
code truncates to 66 while the claim's round-to-nearest gives 67; and on
the entity's first turn-on the coordinator map is an empty dict, not
`None`, so the code uses default proportions 1.0 ({a: 100, b: 100}) instead
of deriving from current brightness. -/
theorem C5_counterexample :
    (calculate_proportional_brightness [onState "a" 100, onState "b" 50] 100
      none).1 = [("a", 133), ("b", 66)] ∧
    spec_round ((100 : ℚ) * ((50 : ℚ) / (((100 : ℚ) + 50) / 2))) = 67 ∧
    (66 : ℤ) ≠ 67 ∧
    (calculate_proportional_brightness [onState "a" 100, onState "b" 50] 100
      (some [])).1 = [("a", 100), ("b", 100)] := by
  refine ⟨by decide, by decide, by decide, by decide⟩

/-- C5, amended: for 1 < T < 255 with `stored_proportions is None`, the
proportions are derived from current brightness over the current average
(all 1.0 when that average is 0) and each device gets
`max(1, min(255, int(T · P[d])))` — Python truncation, not round-to-nearest;
`_apply_to_on_lights` always passes the coordinator's dictionary (never
`None`), so on a first turn-on with the empty dictionary every on device
defaults to proportion 1.0 and is sent `max(1, min(255, T))` instead of a
value derived from its current brightness. -/
theorem C5_theorem :
    (∀ (on_states : List LightState) (T : ℤ),
      on_states ≠ [] → 1 < T → T < 255 →
      (on_states.map (fun s => s.entity_id)).Nodup → current_avg on_states ≠ 0 →
      ((calculate_proportional_brightness on_states T none).2 =
        on_states.map (fun s =>
          (s.entity_id, (state_brightness s : ℚ) / current_avg on_states)) ∧
       (calculate_proportional_brightness on_states T none).1 =
        on_states.map (fun s =>
          (s.entity_id, max 1 (min 255 (pyInt ((T : ℚ) *
            ((state_brightness s : ℚ) / current_avg on_states)))))))) ∧
    (∀ (on_states : List LightState) (T : ℤ),
      on_states ≠ [] → 1 < T → T < 255 → current_avg on_states = 0 →
      ((calculate_proportional_brightness on_states T none).2 =
        on_states.map (fun s => (s.entity_id, (1 : ℚ))) ∧
       (calculate_proportional_brightness on_states T none).1 =
        on_states.map (fun s => (s.entity_id, max 1 (min 255 T))))) ∧
    (∀ (on_states : List LightState) (T : ℤ) (m : PropMap),
      (_apply_to_on_lights on_states T m).1 =
        on_states.map (fun s => (s.entity_id,
          alistGetD (calculate_proportional_brightness on_states T (some m)).1
            s.entity_id T))) ∧
    (∀ (on_states : List LightState) (T : ℤ),
      on_states ≠ [] → 1 < T → T < 255 →
      (calculate_proportional_brightness on_states T (some [])).1 =
        on_states.map (fun s => (s.entity_id, max 1 (min 255 T)))) := by
  have hTv : ∀ T : ℤ, (T : ℚ) * 1 = ((T : ℤ) : ℚ) := by
    intro T
    ring
  have hpyT : ∀ T : ℤ, max 1 (min 255 (pyInt ((T : ℚ) * 1))) = max 1 (min 255 T) := by
    intro T
    rw [hTv, pyInt_intCast]
  refine ⟨?_, ?_, ?_, ?_⟩
  · intro on_states T hne hT1 hT2 hnd havg
    obtain ⟨a, t, rfl⟩ := List.exists_cons_of_ne_nil hne
    have hc1 : ¬ (255 : ℤ) ≤ T := not_le.mpr hT2
    have hc2 : ¬ T ≤ 1 := not_le.mpr hT1
    have hden : qListAvg (((a :: t).map
        (fun s => (s.entity_id, (state_brightness s : ℚ)))).map (fun p => p.2))
        = current_avg (a :: t) := by
      rw [List.map_map]
      rfl
    have hprop : (calculate_proportional_brightness (a :: t) T none).2 =
        (a :: t).map (fun s =>
          (s.entity_id, (state_brightness s : ℚ) / current_avg (a :: t))) := by
      simp only [calculate_proportional_brightness, if_neg hc1, if_neg hc2,
        hden, if_neg havg]
      simp only [List.map_map]
      rfl
    refine ⟨hprop, ?_⟩
    have key : (calculate_proportional_brightness (a :: t) T none).1 =
        ((a :: t).map (fun s => s.entity_id)).map (fun e =>
          (e, max 1 (min 255 (pyInt ((T : ℚ) * alistGetD
            ((a :: t).map (fun s =>
              (s.entity_id, (state_brightness s : ℚ) / current_avg (a :: t)))) e 1))))) := by
      simp only [calculate_proportional_brightness, if_neg hc1, if_neg hc2,
        hden, if_neg havg]
      simp only [List.map_map]
      rfl
    rw [key, List.map_map]
    refine List.map_congr_left ?_
    intro s hs
    have := alistGetD_map_of_nodup (a :: t) (fun s => s.entity_id)
      (fun s => (state_brightness s : ℚ) / current_avg (a :: t)) s 1 hs hnd
    simp only [Function.comp]
    rw [this]
  · intro on_states T hne hT1 hT2 havg
    obtain ⟨a, t, rfl⟩ := List.exists_cons_of_ne_nil hne
    have hc1 : ¬ (255 : ℤ) ≤ T := not_le.mpr hT2
    have hc2 : ¬ T ≤ 1 := not_le.mpr hT1
    have hden : qListAvg (((a :: t).map
        (fun s => (s.entity_id, (state_brightness s : ℚ)))).map (fun p => p.2))
        = current_avg (a :: t) := by
      rw [List.map_map]
      rfl
    constructor
    · simp only [calculate_proportional_brightness, if_neg hc1, if_neg hc2,
        hden, if_pos havg]
      simp only [List.map_map]
      rfl
    · have key : (calculate_proportional_brightness (a :: t) T none).1 =
          ((a :: t).map (fun s => s.entity_id)).map (fun e =>
            (e, max 1 (min 255 (pyInt ((T : ℚ) * alistGetD
              (((a :: t).map (fun s => s.entity_id)).map (fun e' => (e', (1 : ℚ))))
              e 1))))) := by
        simp only [calculate_proportional_brightness, if_neg hc1, if_neg hc2,
          hden, if_pos havg]
      rw [key, List.map_map]
      refine List.map_congr_left ?_
      intro s hs
      simp only [Function.comp]
      rw [alistGetD_map_key ((a :: t).map (fun s' => s'.entity_id))
        (fun _ => (1 : ℚ)) s.entity_id 1 (List.mem_map_of_mem _ hs)]
      rw [hpyT T]
  · intro on_states T m
    rfl
  · intro on_states T hne hT1 hT2
    obtain ⟨a, t, rfl⟩ := List.exists_cons_of_ne_nil hne
    have hc1 : ¬ (255 : ℤ) ≤ T := not_le.mpr hT2
    have hc2 : ¬ T ≤ 1 := not_le.mpr hT1
    have key : (calculate_proportional_brightness (a :: t) T (some [])).1 =
        ((a :: t).map (fun s => s.entity_id)).map (fun e =>
          (e, max 1 (min 255 (pyInt ((T : ℚ) * alistGetD
            (((a :: t).map (fun s => s.entity_id)).map
              (fun e' => (e', alistGetD ([] : PropMap) e' 1))) e 1))))) := by
      simp only [calculate_proportional_brightness, if_neg hc1, if_neg hc2]
    rw [key, List.map_map]
    refine List.map_congr_left ?_
    intro s hs
    simp only [Function.comp]
    rw [alistGetD_map_key ((a :: t).map (fun s' => s'.entity_id))
      (fun e' => alistGetD ([] : PropMap) e' 1) s.entity_id 1
      (List.mem_map_of_mem _ hs)]
    rw [show alistGetD ([] : PropMap) s.entity_id 1 = 1 from rfl]
    rw [hpyT T]

/-- C5, witness: scenario A at targets below full — stored-free derivation
on currents {a: 100, b: 50} with target 100, and a first turn-on with the
empty coordinator map at target 200. -/
theorem C5_witness :
    (calculate_proportional_brightness [onState "a" 100, onState "b" 50] 100
      none).2 = [("a", 100 / ((150 : ℚ)/2)), ("b", 50 / ((150 : ℚ)/2))] ∧
    (calculate_proportional_brightness [onState "a" 100, onState "b" 50] 200
      (some [])).1 = [("a", 200), ("b", 200)] := by
  constructor
  · have h := (C5_theorem.1 [onState "a" 100, onState "b" 50] 100 (by decide)
      (by decide) (by decide) (by decide) (by decide)).1
    rw [h]
    decide
  · have h := C5_theorem.2.2.2 [onState "a" 100, onState "b" 50] 200 (by decide)
      (by decide) (by decide)
    rw [h]
    decide

/-- C6, counterexample: stored {a: 1, b: 0.56}, target 10 — the command
sends {a: 10, b: 5}; re-observing gives b the proportion 0.5, a drift of
0.06 > 0.05, so the stored map is rewritten to {a: 1, b: 0.5}: the round
trip is not idempotent for every stored map and target. -/
theorem C6_counterexample :
    observe_proportions [("a", 1), ("b", 14/25)]
      (roundtrip_states [("a", 1), ("b", 14/25)] 10
        [onState "a" 100, onState "b" 50])
      = [("a", 1), ("b", 1/2)] ∧
    ([("a", 1), ("b", 1/2)] : PropMap) ≠ [("a", 1), ("b", 14/25)] := by
  refine ⟨by decide, by decide⟩

/-- C6, amended: the round trip leaves a non-empty stored map unchanged
provided every re-observed per-device proportion (commanded brightness over
the new group maximum) is within the 0.05 drift gate of its stored value;
beyond the gate the observation pass overwrites the stored proportions. -/
theorem C6_theorem (sp : PropMap) (T : ℤ) (on_states : List LightState)
    (hsp : sp ≠ [])
    (hdrift : ∀ p ∈ roundtrip_current sp T on_states,
      |p.2 - alistGetD sp p.1 0| ≤ 1/20) :
    observe_proportions sp (roundtrip_states sp T on_states) = sp := by
  rw [observe_proportions]
  split
  · rfl
  · rename_i g hg
    split
    · rename_i hpos
      dsimp only
      split
      · rename_i hcond
        exfalso
        rcases Bool.or_eq_true_iff.mp hcond with hemp | hany
        · exact hsp (List.isEmpty_iff.mp hemp)
        · obtain ⟨p, hp, hlt⟩ := List.any_eq_true.mp hany
          have hmem : p ∈ roundtrip_current sp T on_states := by
            rw [roundtrip_current, hg]
            exact hp
          exact absurd (of_decide_eq_true hlt) (not_lt.mpr (hdrift p hmem))
      · rfl
    · rfl

/-- C6, witness: stored {a: 1, b: 0.5} at target 200 commands {a: 200,
b: 100}; re-observing reproduces exactly the stored proportions, so the
map is unchanged. -/
theorem C6_witness :
    observe_proportions [("a", 1), ("b", 1/2)]
      (roundtrip_states [("a", 1), ("b", 1/2)] 200
        [onState "a" 100, onState "b" 50])
      = [("a", 1), ("b", 1/2)] :=
  C6_theorem [("a", 1), ("b", 1/2)] 200 [onState "a" 100, onState "b" 50]
    (by decide) (by decide)

theorem qListMax_nonneg {l : List ℚ} (h : ∀ x ∈ l, 0 ≤ x) : 0 ≤ qListMax l := by
  cases hl : l with
  | nil => rw [qListMax]; rfl
  | cons a t =>
    obtain ⟨m, hm, hmem, _⟩ := max?_spec (l := a :: t) (by simp)
    rw [qListMax, hm]
    exact h m (hl ▸ hmem)

theorem qListAvg_nonneg {l : List ℚ} (h : ∀ x ∈ l, 0 ≤ x) : 0 ≤ qListAvg l := by
  rw [qListAvg]
  exact div_nonneg (List.sum_nonneg h) (by positivity)

theorem alistFind_nonneg {m : PropMap} (hm : ∀ p ∈ m, 0 ≤ p.2) {k : String}
    {v : ℚ} (h : alistFind m k = some v) : 0 ≤ v := by
  rw [alistFind] at h
  obtain ⟨q, hq, hqv⟩ := Option.map_eq_some'.mp h
  exact hqv ▸ hm q (List.mem_of_find?_eq_some hq)

theorem alistGetD_nonneg {m : PropMap} (hm : ∀ p ∈ m, 0 ≤ p.2) (k : String)
    {d : ℚ} (hd : 0 ≤ d) : 0 ≤ alistGetD m k d := by
  rw [alistGetD]
  cases h : alistFind m k with
  | none => simpa using hd
  | some v => simpa using alistFind_nonneg hm h

theorem alistUpdate_nonneg {m new : PropMap} (hm : ∀ p ∈ m, 0 ≤ p.2)
    (hnew : ∀ p ∈ new, 0 ≤ p.2) : ∀ p ∈ alistUpdate m new, 0 ≤ p.2 := by
  intro p hp
  rw [alistUpdate] at hp
  rcases List.mem_append.mp hp with h | h
  · obtain ⟨q, hq, hqp⟩ := List.mem_map.mp h
    cases hf : alistFind new q.1 with
    | some v =>
      rw [hf] at hqp
      rw [← hqp]
      exact alistFind_nonneg hnew hf
    | none =>
      rw [hf] at hqp
      rw [← hqp]
      exact hm q hq
  · exact hnew p (List.mem_filter.mp h).1

theorem current_proportions_nonneg (on_states : List LightState) (g : ℕ) :
    ∀ p ∈ current_proportions_of on_states g, 0 ≤ p.2 := by
  intro p hp
  obtain ⟨s, hs, rfl⟩ := List.mem_map.mp hp
  exact div_nonneg (by positivity) (by positivity)

theorem calc_props_nonneg (on_states : List LightState) (T : ℤ)
    (spo : Option PropMap) (hsp : ∀ sp, spo = some sp → ∀ p ∈ sp, 0 ≤ p.2) :
    ∀ p ∈ (calculate_proportional_brightness on_states T spo).2, 0 ≤ p.2 := by
  intro p hp
  cases on_states with
  | nil => simp [calculate_proportional_brightness] at hp
  | cons a t =>
    simp only [calculate_proportional_brightness] at hp
    split at hp
    · split at hp
      · dsimp only at hp
        obtain ⟨q, hq, rfl⟩ := List.mem_map.mp hp
        obtain ⟨s, hs, rfl⟩ := List.mem_map.mp hq
        dsimp only
        refine div_nonneg (by positivity) ?_
        split
        · norm_num
        · refine qListMax_nonneg ?_
          intro x hx
          obtain ⟨q', hq', rfl⟩ := List.mem_map.mp hx
          obtain ⟨s', hs', rfl⟩ := List.mem_map.mp hq'
          positivity
      · rename_i sp
        obtain ⟨e, he, rfl⟩ := List.mem_map.mp hp
        exact alistGetD_nonneg (hsp sp rfl) e (by norm_num)
    · split at hp
      · split at hp
        · obtain ⟨e, he, rfl⟩ := List.mem_map.mp hp
          norm_num
        · rename_i sp
          obtain ⟨e, he, rfl⟩ := List.mem_map.mp hp
          exact alistGetD_nonneg (hsp sp rfl) e (by norm_num)
      · dsimp only at hp
        split at hp
        · split at hp
          · obtain ⟨e, he, rfl⟩ := List.mem_map.mp hp
            norm_num
          · obtain ⟨q, hq, rfl⟩ := List.mem_map.mp hp
            obtain ⟨s, hs, rfl⟩ := List.mem_map.mp hq
            dsimp only
            refine div_nonneg (by positivity) ?_
            refine qListAvg_nonneg ?_
            intro x hx
            obtain ⟨q', hq', rfl⟩ := List.mem_map.mp hx
            obtain ⟨s', hs', rfl⟩ := List.mem_map.mp hq'
            positivity
        · rename_i sp
          obtain ⟨e, he, rfl⟩ := List.mem_map.mp hp
          exact alistGetD_nonneg (hsp sp rfl) e (by norm_num)

/-- C8: both writers of the stored proportion map preserve nonnegativity —
the aggregation pass observing on-device brightness, and the write-back of
the proportions used when a group brightness command is disaggregated. -/
theorem C8_theorem :
    (∀ (sp : PropMap) (states : List LightState), (∀ p ∈ sp, 0 ≤ p.2) →
      ∀ p ∈ update_proportions sp states, 0 ≤ p.2) ∧
    (∀ (on_states : List LightState) (T : ℤ) (m : PropMap),
      (∀ p ∈ m, 0 ≤ p.2) →
      ∀ p ∈ (_apply_to_on_lights on_states T m).2, 0 ≤ p.2) := by
  constructor
  · intro sp states hsp p hp
    rw [update_proportions] at hp
    split at hp
    · exact hsp p hp
    · rw [observe_proportions] at hp
      split at hp
      · exact hsp p hp
      · split at hp
        · dsimp only at hp
          split at hp
          · exact alistUpdate_nonneg hsp (current_proportions_nonneg _ _) p hp
          · exact hsp p hp
        · exact hsp p hp
  · intro on_states T m hm p hp
    rw [_apply_to_on_lights] at hp
    dsimp only at hp
    refine alistUpdate_nonneg hm ?_ p hp
    refine calc_props_nonneg on_states T (some m) ?_
    intro sp' h
    cases h
    exact hm

/-- C8, witness: a stored proportion of 1/2 observed at brightness 100
stays a nonnegative entry (the observation writes the proportion 1). -/
theorem C8_witness :
    ("a", (1 : ℚ)) ∈ update_proportions [("a", 1/2)] [onState "a" 100] ∧
    (0 : ℚ) ≤ (("a", (1 : ℚ))).2 := by
  refine ⟨by decide, ?_⟩
  exact C8_theorem.1 [("a", 1/2)] [onState "a" 100] (by decide)
    ("a", (1 : ℚ)) (by decide)

theorem alistFind_value_prop {β : Type} {P : β → Prop} {m : List (String × β)}
    (hm : ∀ p ∈ m, P p.2) {k : String} {v : β} (h : alistFind m k = some v) :
    P v := by
  rw [alistFind] at h
  obtain ⟨q, hq, hqv⟩ := Option.map_eq_some'.mp h
  exact hqv ▸ hm q (List.mem_of_find?_eq_some hq)

theorem alistGetD_value_prop {β : Type} {P : β → Prop} {m : List (String × β)}
    (hm : ∀ p ∈ m, P p.2) {k : String} {d : β} (hd : P d) :
    P (alistGetD m k d) := by
  rw [alistGetD]
  cases h : alistFind m k with
  | none => simpa using hd
  | some v => simpa using alistFind_value_prop hm h

theorem floor_at_one (v : ℤ) : 1 ≤ if v < 1 then (1 : ℤ) else v := by
  split
  · exact le_refl 1
  · rename_i h
    exact not_lt.mp h

theorem calc_brightness_ge_one (on_states : List LightState) (T : ℤ)
    (spo : Option PropMap) :
    ∀ p ∈ (calculate_proportional_brightness on_states T spo).1, 1 ≤ p.2 := by
  intro p hp
  cases on_states with
  | nil => simp [calculate_proportional_brightness] at hp
  | cons a t =>
    simp only [calculate_proportional_brightness] at hp
    split at hp
    · split at hp
      · obtain ⟨e, he, rfl⟩ := List.mem_map.mp hp
        exact floor_at_one _
      · obtain ⟨e, he, rfl⟩ := List.mem_map.mp hp
        exact floor_at_one _
    · split at hp
      · obtain ⟨e, he, rfl⟩ := List.mem_map.mp hp
        exact le_refl 1
      · obtain ⟨e, he, rfl⟩ := List.mem_map.mp hp
        dsimp only
        exact le_max_left 1 _

theorem py_truthy_ge_one (x : Option ℕ) (v : ℕ) (h : py_truthy x = some v) :
    1 ≤ v := by
  cases x with
  | none => simp [py_truthy] at h
  | some n =>
    rw [py_truthy] at h
    split at h
    · cases h
    · rename_i hn
      cases h
      omega

theorem turn_on_brightness_ge_one (t c : Option ℕ) (b : Bool) :
    1 ≤ async_turn_on_brightness t c b := by
  rw [async_turn_on_brightness]
  cases b with
  | false =>
    rw [if_neg (by simp)]
    cases h1 : py_truthy t with
    | none => simp
    | some v => simpa using py_truthy_ge_one t v h1
  | true =>
    rw [if_pos rfl]
    cases h1 : py_truthy t with
    | none =>
      cases h2 : py_truthy c with
      | none => simp [Option.or]
      | some v => simpa [Option.or] using py_truthy_ge_one c v h2
    | some v => simpa [Option.or] using py_truthy_ge_one t v h1

/-- C10: an explicit brightness of 0 on the group turn-on behaves exactly
as an absent brightness — the dispatch is identical, the fallback is 255
with no member on and (current group brightness, else 255) with members on
— and no per-device turn-on brightness of 0 is ever dispatched. -/
theorem C10_theorem :
    (∀ (states : List LightState) (coordB : Option ℕ) (m : PropMap),
      async_turn_on_dispatch states (some 0) coordB m =
        async_turn_on_dispatch states none coordB m) ∧
    (∀ coordB : Option ℕ, async_turn_on_brightness (some 0) coordB false = 255) ∧
    (∀ c : ℕ, c ≠ 0 → async_turn_on_brightness (some 0) (some c) true = c) ∧
    (async_turn_on_brightness (some 0) (some 0) true = 255 ∧
     async_turn_on_brightness (some 0) none true = 255) ∧
    (∀ (states : List LightState) (coordB : Option ℕ) (m : PropMap),
      ∀ p ∈ async_turn_on_dispatch states (some 0) coordB m, 1 ≤ p.2) := by
  have hb : ∀ (c : Option ℕ) (b : Bool),
      async_turn_on_brightness (some 0) c b = async_turn_on_brightness none c b := by
    intro c b
    rfl
  refine ⟨?_, ?_, ?_, ⟨rfl, rfl⟩, ?_⟩
  · intro states coordB m
    cases states with
    | nil => rfl
    | cons a t => simp only [async_turn_on_dispatch, hb]
  · intro coordB
    rfl
  · intro c hc
    simp [async_turn_on_brightness, py_truthy, hc, Option.or]
  · intro states coordB m p hp
    cases states with
    | nil => simp [async_turn_on_dispatch] at hp
    | cons a t =>
      simp only [async_turn_on_dispatch] at hp
      split at hp
      · rw [_apply_to_all_lights] at hp
        obtain ⟨s, hs, rfl⟩ := List.mem_map.mp hp
        dsimp only
        exact_mod_cast turn_on_brightness_ge_one (some 0) coordB false
      · rw [_apply_to_on_lights] at hp
        dsimp only at hp
        obtain ⟨s, hs, rfl⟩ := List.mem_map.mp hp
        dsimp only
        refine @alistGetD_value_prop ℤ (fun v : ℤ => 1 ≤ v) _ ?_ _ _ ?_
        · exact calc_brightness_ge_one _ _ _
        · show (1 : ℤ) ≤ ((async_turn_on_brightness (some 0) coordB true : ℕ) : ℤ)
          exact_mod_cast turn_on_brightness_ge_one (some 0) coordB true

/-- C10, witness: a single off device — brightness 0 dispatches like no
brightness, the device is commanded 255, and nothing gets a 0. -/
theorem C10_witness :
    async_turn_on_dispatch [offState "a"] (some 0) none [] =
      async_turn_on_dispatch [offState "a"] none none [] ∧
    ("a", (255 : ℤ)) ∈ async_turn_on_dispatch [offState "a"] (some 0) none [] ∧
    1 ≤ (("a", (255 : ℤ))).2 := by
  refine ⟨C10_theorem.1 [offState "a"] none [], by decide, ?_⟩
  exact C10_theorem.2.2.2.2 [offState "a"] none [] ("a", 255) (by decide)

example : _simple_color_average [((0:ℚ), (100:ℚ)), (240, 100)] = (120, 100) := by decide
example : spec_average_colors [((0:ℚ), (100:ℚ)), (240, 100)] = (300, 100) := by decide
example : pyInt (567/100) = 5 := by decide
example : pyInt (-567/100) = -5 := by decide
example : pyMod 370 360 = 10 := by decide
example : pyMod (-20) 360 = 340 := by decide
example : spec_round (254745/1000) = 255 := by decide
